import Mathlib

/-!
Shallow embedding of the question-answering pipeline in `wikidata_rag.py`
(class `WikidataGraphRAG`), together with proofs about the behaviour of the
entity-search stage, entity resolution, query synthesis post-processing,
query execution and the answer stage.

Python strings are modelled as Lean `String`s; the handful of Python string
operations the source uses (`in`, `lower`, `replace`, `split(sep)[-1]`,
`strip`) are re-implemented below by structural recursion over `List Char`
so every definition evaluates inside the kernel.  Python exceptions are
modelled with `Except`/`Option`; each external effect (HTTP search call,
SPARQL endpoint, LLM generation call) is an explicit input to the function
that the source obtains from it.
-/

namespace WikidataRAG

/-! ## Python string primitives -/

/-- Check of `sub` being a leading segment of `l` (helper for the substring
scan used to model Python's `in`, `replace` and `split`). -/
def startsWithChars : List Char → List Char → Bool
  | [], _ => true
  | _ :: _, [] => false
  | a :: as, b :: bs => a == b && startsWithChars as bs

/-- First index at which `sub` occurs inside the list, if any (models the
left-to-right scan of `re.search` on a literal pattern and of Python `in`). -/
def findSubIdx (sub : List Char) : List Char → Option Nat
  | [] => if startsWithChars sub [] then some 0 else none
  | a :: t => if startsWithChars sub (a :: t) then some 0 else (findSubIdx sub t).map (· + 1)

/-- Model of Python's substring test `sub in s`. -/
def containsSub (sub s : String) : Bool := (findSubIdx sub.toList s.toList).isSome

/-- Scanner for Python's `s.split(sep)[-1]`: walks the text left to right,
consuming non-overlapping occurrences of `sep` and keeping only the piece
accumulated after the occurrence consumed last.  `k` counts characters of a
matched separator still to be skipped. -/
def splitLastAux (sep : List Char) : List Char → Nat → List Char → List Char
  | [], _, acc => acc
  | _ :: t, Nat.succ k, acc => splitLastAux sep t k acc
  | a :: t, 0, acc =>
    if !sep.isEmpty && startsWithChars sep (a :: t) then
      splitLastAux sep t (sep.length - 1) []
    else splitLastAux sep t 0 (acc ++ [a])

/-- Model of Python's `s.split(sep)[-1]` for a non-empty separator. -/
def pySplitLast (sep s : String) : String := ⟨splitLastAux sep.toList s.toList 0 []⟩

/-- Left-to-right non-overlapping replacement scan; `k` counts characters of
a matched occurrence still to be skipped. -/
def replaceAux (sub repl : List Char) : List Char → Nat → List Char
  | [], _ => []
  | _ :: t, Nat.succ k => replaceAux sub repl t k
  | a :: t, 0 =>
    if !sub.isEmpty && startsWithChars sub (a :: t) then
      repl ++ replaceAux sub repl t (sub.length - 1)
    else a :: replaceAux sub repl t 0

/-- Model of Python's `s.replace(sub, repl)` (all occurrences, left to
right, non-overlapping). -/
def pyReplace (s sub repl : String) : String := ⟨replaceAux sub.toList repl.toList s.toList 0⟩

/-- ASCII whitespace as stripped by Python's `str.strip()`. -/
def pyIsSpace (c : Char) : Bool :=
  c == ' ' || c == '\t' || c == '\n' || c == '\r' || c == '\x0b' || c == '\x0c'

/-- Model of Python's `s.strip()`. -/
def pyStrip (s : String) : String :=
  ⟨((s.toList.dropWhile pyIsSpace).reverse.dropWhile pyIsSpace).reverse⟩

/-- Model of Python's `s.lower()` (the source only tests ASCII keywords). -/
def pyLower (s : String) : String := ⟨s.toList.map Char.toLower⟩

/-! ## Data model -/

/-- One element of the `data["search"]` array of the `wbsearchentities`
response, as the JSON dictionary the source indexes into: `id`, `label` and
`description` may each be absent (`none`). -/
structure SearchItem where
  id : Option String
  label : Option String
  description : Option String
deriving DecidableEq

/-- Candidate dictionary built by `_get_wikidata_entities`: the literal
`{"id": …, "label": …, "description": …}` comprehension, so exactly these
three keys. -/
structure Candidate where
  id : String
  label : String
  description : String
deriving DecidableEq

/-- Python exception kinds the embedded code can raise. -/
inductive PyError where
  | keyError
  | attributeError
deriving DecidableEq

/-- Entry of the pydantic `EntityIds.ids` list parsed in `get_entity_ids`
(`EntityIdItem`: `id`, `label` required, `description` optional). -/
structure EntityIdItem where
  id : String
  label : String
  description : Option String
deriving DecidableEq

/-- Pydantic `EntityIds` output object of the disambiguation call. -/
structure EntityIds where
  ids : List EntityIdItem
deriving DecidableEq

/-- Flattened result record: a Python dict as an insertion-ordered
association list from variable name to bound value. -/
abbrev Record := List (String × String)

/-! ## Entity search: `_fetch_wikidata` and `_get_wikidata_entities` -/

/-- Outcome of the `requests.get` call inside `_fetch_wikidata`: either a
response whose `.json()["search"]` holds the given items, or a raised
exception. -/
inductive HttpOutcome where
  | ok (search : List SearchItem)
  | raised
deriving DecidableEq

/-- Value `_fetch_wikidata` hands back to its caller: the response object,
or the literal string it returns from its `except` branch. -/
inductive FetchValue where
  | resp (search : List SearchItem)
  | errText (s : String)
deriving DecidableEq

/-- Embedding of `_fetch_wikidata`: `try: return requests.get(url, params)
except: return "There was and error"`. -/
def fetch_wikidata : HttpOutcome → FetchValue
  | .ok items => .resp items
  | .raised => .errText "There was and error"

/-- Effect of the `data.json()` call in `_get_wikidata_entities`: on a
response object it yields the parsed body (we carry its `"search"` array);
on the error string it raises `AttributeError` (`str` has no attribute
`json`). -/
def jsonOf : FetchValue → Except PyError (List SearchItem)
  | .resp items => .ok items
  | .errText _ => .error .attributeError

/-- One step of the comprehension in `_get_wikidata_entities`:
`{"id": item["id"], "label": item["label"], "description":
item.get("description", "")}` — a missing `id` or `label` raises
`KeyError`, a missing `description` defaults to `""`. -/
def toCandidate (item : SearchItem) : Except PyError Candidate :=
  match item.id with
  | none => .error .keyError
  | some i =>
    match item.label with
    | none => .error .keyError
    | some l => .ok ⟨i, l, item.description.getD ""⟩

/-- Left-to-right elaboration of the comprehension body over the items, with
the first raised exception aborting the whole list. -/
def collectCandidates : List SearchItem → Except PyError (List Candidate)
  | [] => .ok []
  | item :: rest =>
    match toCandidate item with
    | .error e => .error e
    | .ok c =>
      match collectCandidates rest with
      | .error e => .error e
      | .ok cs => .ok (c :: cs)

/-- Embedding of `_get_wikidata_entities`: fetch, call `.json()` on the
returned value, then build candidates from `data["search"][:5]`. -/
def get_wikidata_entities (h : HttpOutcome) : Except PyError (List Candidate) :=
  match jsonOf (fetch_wikidata h) with
  | .error e => .error e
  | .ok items => collectCandidates (items.take 5)

/-! ## Entity resolution: `get_entity_ids` -/

/-- Embedding of the tail of `get_entity_ids` after the LLM call.  The
fetched candidate lists (`retrieved_wikidata_matched_entities`) are
interpolated into the prompt only, so they are a parameter that the
returned value never consults.  The raw LLM output is split on
`"Entity IDs: "` keeping the last piece, parsed, and on a parse failure
parsed once more after replacing single quotes by double quotes; the parsed
`ids` list is returned unchanged — there is no post-hoc filtering against
the candidate sets.  `parse` models `PydanticOutputParser.parse`, `none`
meaning it raises. -/
def get_entity_ids_model (candidatesForPrompt : List (String × List Candidate))
    (llmResponse : String) (parse : String → Option EntityIds) :
    Option (List EntityIdItem) :=
  let response := pySplitLast "Entity IDs: " llmResponse
  match parse response with
  | some p => some p.ids
  | none =>
    match parse (pyReplace response "'" "\"") with
    | some p => some p.ids
    | none => none

/-! ## Query synthesis: `_extract_sparql_query` and `generate_sparql` -/

/-- Embedding of `_extract_sparql_query`: `re.search` for the pattern
made of a literal ` ```sparql `, a non-greedy group and a literal
` ``` ` under `DOTALL`, returning the stripped group, else `None`.  The
leftmost match starts at the first occurrence of the opening fence and the
non-greedy group ends at the first closing fence after it. -/
def extract_sparql_query (text : String) : Option String :=
  let cs := text.toList
  match findSubIdx "```sparql".toList cs with
  | none => none
  | some i =>
    let rest := (cs.drop i).drop "```sparql".length
    match findSubIdx "```".toList rest with
    | none => none
    | some j => some (pyStrip ⟨rest.take j⟩)

/-- Clause removal applied by `generate_sparql`'s post-processing branch. -/
def stripRandClauses (t : String) : String :=
  pyReplace (pyReplace (pyReplace t "ORDER BY RAND()" "") "ORDER BY DESC(RAND())" "")
    "ORDER BY ASC(RAND())" ""

/-- Embedding of the post-processing pass of `generate_sparql`
(lines guarded by `("order" not in q or "sort" not in q) and
"random" not in q` over the lowercased question). -/
def postprocessRand (question t : String) : String :=
  if (!containsSub "order" (pyLower question) || !containsSub "sort" (pyLower question))
      && !containsSub "random" (pyLower question) then
    stripRandClauses t
  else t

/-- Embedding of the tail of `generate_sparql` after the LLM call: keep the
text after the last `"## QUESTION"`, run the random-order post-processing
pass, then extract the fenced query from the text after the last
`"SPARQL Query: "`. -/
def generate_sparql_post (question raw : String) : Option String :=
  let raw1 := pySplitLast "## QUESTION" raw
  let raw2 := postprocessRand question raw1
  extract_sparql_query (pySplitLast "SPARQL Query: " raw2)

/-! ## Query execution: `execute_sparql_to_wikidata` -/

/-- Outcome of `self.sparqlwd.query().convert()`: a raised transport or
evaluation error, or a parsed JSON result with `head.vars` and
`results.bindings`; each binding row is a dict from variable name to its
bound `"value"` string. -/
inductive QueryOutcome where
  | failure
  | success (vars : List String) (bindings : List Record)
deriving DecidableEq

/-- Body of the inner loop of `execute_sparql_to_wikidata`: build `tmp` by
inserting `header ↦ result[header]["value"]` in header order; a header
missing from the row raises `KeyError`, modelled as `none`. -/
def flattenRow (vars : List String) (row : Record) : Option Record :=
  match vars with
  | [] => some []
  | v :: vs =>
    match row.lookup v with
    | none => none
    | some x =>
      match flattenRow vs row with
      | none => none
      | some rest => some ((v, x) :: rest)

/-- Outer loop of `execute_sparql_to_wikidata` over the binding rows; any
raised exception discards the partially built list. -/
def collectRows (vars : List String) : List Record → Option (List Record)
  | [] => some []
  | r :: rs =>
    match flattenRow vars r with
    | none => none
    | some flat =>
      match collectRows vars rs with
      | none => none
      | some rest => some (flat :: rest)

/-- Embedding of `execute_sparql_to_wikidata`: the whole body sits in a
`try` whose `except Exception` returns `None`, so a failed query or a row
missing a declared variable yields `none`, and a successful flattening
yields `some` of the records. -/
def execute_sparql_to_wikidata : QueryOutcome → Option (List Record)
  | .failure => none
  | .success vars bindings => collectRows vars bindings

/-! ## Orchestration: `run` and `chat` -/

/-- Fixed message `run` returns when the extracted query equals `""`. -/
def unsupportedQueryMsg : String :=
  "Sorry, we are not supported with this kind of query yet."

/-- Fixed message `chat` returns when the context from `run` is falsy. -/
def unsupportedQuestionMsg : String :=
  "Sorry, we are not supported with this kind of question yet."

/-- Python comparison `query == ""` where `query` is the value produced by
`generate_sparql` (`None` or a string): `None == ""` is `False`. -/
def pyStrEqEmpty : Option String → Bool
  | none => false
  | some s => s == ""

/-- The `try: result = self.execute_sparql_to_wikidata(query) except:
result = []` step of `run`; the executor argument returns `.error ()` when
the call raises and `.ok` with its return value otherwise. -/
def run_exec_step (query : Option String)
    (executor : Option String → Except Unit (Option (List Record))) :
    Option (List Record) :=
  match executor query with
  | .ok r => r
  | .error _ => some []

/-- Value `run` hands to its caller (with `return_query=False`): either the
fixed unsupported-query string, or whatever came out of the executor step —
the latter constructor records that the executor was invoked. -/
inductive RunReturn where
  | unsupportedText (s : String)
  | fromExecutor (r : Option (List Record))
deriving DecidableEq

/-- Embedding of the tail of `run` after `generate_sparql`: the guard is
`if query == "": return "Sorry, we are not supported with this kind of
query yet."`, otherwise the executor step runs and its result is returned. -/
def run_after_synthesis (query : Option String)
    (executor : Option String → Except Unit (Option (List Record))) : RunReturn :=
  if pyStrEqEmpty query then .unsupportedText unsupportedQueryMsg
  else .fromExecutor (run_exec_step query executor)

/-- Value `chat` returns: the fixed message from its short-circuit, or an
answer produced by the generation call (the constructor records that the
generation call was made). -/
inductive ChatReturn where
  | fixedMsg (s : String)
  | generated (answer : String)
deriving DecidableEq

/-- Python truthiness of `wikidata_context` as tested by `if not
wikidata_context:` in `chat`: a string is truthy when non-empty, `None` is
falsy, a list is truthy when non-empty. -/
def runTruthy : RunReturn → Bool
  | .unsupportedText s => !(s == "")
  | .fromExecutor none => false
  | .fromExecutor (some []) => false
  | .fromExecutor (some (_ :: _)) => true

/-- Embedding of the tail of `chat` after `run`: short-circuit to the fixed
message on a falsy context, otherwise call the LLM chain (`gen`). -/
def chat_after_run (ctx : RunReturn) (gen : RunReturn → String) : ChatReturn :=
  if runTruthy ctx then .generated (gen ctx) else .fixedMsg unsupportedQuestionMsg

/-! ## Claim C4 — recovery of a failed entity-search call -/

/-- C4: the claim says a failed entity-search HTTP call yields an empty
candidate list for the mention and the pipeline does not abort.  The code
instead returns the string `"There was and error"` from `_fetch_wikidata`'s
`except` branch, and `_get_wikidata_entities` then calls `.json()` on that
string, raising `AttributeError`: the call never produces a list (empty or
otherwise) on a failed search, so the pipeline aborts. -/
theorem c4_search_failure_raises :
    fetch_wikidata .raised = .errText "There was and error"
    ∧ get_wikidata_entities .raised = .error .attributeError
    ∧ (get_wikidata_entities .raised).isOk = false := by
  exact ⟨rfl, rfl, rfl⟩

/-! ## Claim C5 — answer stage on an empty record sequence -/

/-- C5 counterexample: on an empty record sequence `chat` does short-circuit
to a fixed string without a generation call, but that string is
`"Sorry, we are not supported with this kind of question yet."`, not the
`"cannot answer from available context"` refusal the claim names. -/
theorem c5_refusal_string_cex :
    chat_after_run (.fromExecutor (some [])) (fun _ => "some generated answer")
      = .fixedMsg unsupportedQuestionMsg
    ∧ (unsupportedQuestionMsg == "cannot answer from available context") = false := by
  exact ⟨rfl, by decide⟩

/-- C5 amended: for every question whose pipeline yields an empty record
sequence, `chat` short-circuits to the fixed string `"Sorry, we are not
supported with this kind of question yet."` and issues no generation call —
the result is the `fixedMsg` branch whatever the generation function would
have produced. -/
theorem c5_empty_records_short_circuit (gen : RunReturn → String) :
    chat_after_run (.fromExecutor (some [])) gen = .fixedMsg unsupportedQuestionMsg := rfl

/-! ## Claim C6 — the random-order stripping condition -/

/-- C6: the post-processing pass of `generate_sparql` applies the
random-order clause removal exactly when NOT("order" occurs in the
lowercased question AND "sort" occurs in it) AND NOT("random" occurs in
it), and leaves the raw output unchanged otherwise; the code's
`("order" not in q or "sort" not in q) and "random" not in q` guard is
equivalent to that rule. -/
theorem c6_strip_condition (question t : String) :
    postprocessRand question t =
      if !(containsSub "order" (pyLower question) && containsSub "sort" (pyLower question))
          && !containsSub "random" (pyLower question) then
        stripRandClauses t
      else t := by
  unfold postprocessRand
  cases h1 : containsSub "order" (pyLower question) <;>
    cases h2 : containsSub "sort" (pyLower question) <;>
      cases h3 : containsSub "random" (pyLower question) <;>
        simp [h1, h2, h3]

/-! ## Claim C3 — execution failure routed to the answer stage -/

/-- C3 counterexample: when the knowledge-base query call fails,
`execute_sparql_to_wikidata` returns `None` (not an empty record list —
the two are distinct values), and the answer stage then returns the fixed
string `"Sorry, we are not supported with this kind of question yet."`,
which is not the `"cannot answer from available context"` refusal the claim
names (it is the same apology-phrased message as the unsupported-question
path). -/
theorem c3_failure_message_cex :
    execute_sparql_to_wikidata .failure = none
    ∧ ((none : Option (List Record)) == some []) = false
    ∧ chat_after_run (.fromExecutor (execute_sparql_to_wikidata .failure))
        (fun _ => "some generated answer") = .fixedMsg unsupportedQuestionMsg
    ∧ (unsupportedQuestionMsg == "cannot answer from available context") = false := by
  exact ⟨rfl, by decide, rfl, by decide⟩

/-- C3 amended: for every run in which the knowledge-base query call fails —
whether the executor returns `None` after catching internally, or raises so
that `run` substitutes `[]` — the pipeline continues: `run` hands the falsy
result to `chat`, which short-circuits without a generation call to the
fixed message `"Sorry, we are not supported with this kind of question
yet."`, the same fixed message as the zero-record case. -/
theorem c3_failure_routes_to_fixed_message (q : String) (hq : q ≠ "")
    (executor : Option String → Except Unit (Option (List Record)))
    (hfail : executor (some q) = .ok none ∨ executor (some q) = .error ())
    (gen : RunReturn → String) :
    chat_after_run (run_after_synthesis (some q) executor) gen
      = .fixedMsg unsupportedQuestionMsg := by
  have hb : (q == "") = false := by
    simpa using hq
  rcases hfail with h | h <;>
    simp [run_after_synthesis, pyStrEqEmpty, hb, run_exec_step, h, chat_after_run, runTruthy]

/-- C3 witness: the amended theorem applied at the concrete query
`"SELECT ?x WHERE { }"` with an executor that fails by returning `None`. -/
theorem c3_failure_routes_to_fixed_message_witness :
    ("SELECT ?x" : String) ≠ ""
    ∧ chat_after_run
        (run_after_synthesis (some "SELECT ?x")
          (fun _ => (Except.ok none : Except Unit (Option (List Record)))))
        (fun _ => "some generated answer") = .fixedMsg unsupportedQuestionMsg :=
  ⟨by decide,
    c3_failure_routes_to_fixed_message "SELECT ?x" (by decide) _ (Or.inl rfl) _⟩

/-! ## Claim C2 — synthesis output with no fenced query block -/

/-- C2 counterexample: on a synthesis output with no fenced ```sparql```
block, `_extract_sparql_query` returns `None`, not the empty string; in
`run` the guard `query == ""` is then `False` (Python's `None == ""`), so
`run` proceeds to invoke the query executor instead of returning the fixed
unsupported-query message. -/
theorem c2_missing_fence_calls_executor_cex :
    extract_sparql_query "I cannot produce a query for this question." = none
    ∧ run_after_synthesis none (fun _ => (Except.ok none : Except Unit (Option (List Record))))
        = .fromExecutor none
    ∧ (RunReturn.fromExecutor none == .unsupportedText unsupportedQueryMsg) = false := by
  exact ⟨by decide, rfl, by decide⟩

/-- C2 amended: when the synthesis output contains no ```sparql``` fence,
the extracted query is `None` (not the empty string); `run`'s emptiness
test `query == ""` is `False` for `None`, so `run` invokes the executor
with `None`.  The fixed unsupported-query message is returned exactly when
extraction yields the empty string, i.e. when a fenced block is present
with blank content. -/
theorem c2_missing_fence_behavior (text : String)
    (h : containsSub "```sparql" text = false)
    (executor : Option String → Except Unit (Option (List Record))) :
    extract_sparql_query text = none
    ∧ run_after_synthesis (extract_sparql_query text) executor
        = .fromExecutor (run_exec_step none executor)
    ∧ run_after_synthesis (some "") executor = .unsupportedText unsupportedQueryMsg := by
  have he : extract_sparql_query text = none := by
    unfold containsSub at h
    have hf : findSubIdx "```sparql".toList text.toList = none := by
      rcases hx : findSubIdx "```sparql".toList text.toList with _ | i
      · rfl
      · rw [hx] at h
        simp at h
    simp only [extract_sparql_query]
    rw [hf]
  refine ⟨he, ?_, rfl⟩
  rw [he]
  rfl

/-- C2 witness: the amended theorem applied to the concrete fence-free
output `"no fence in this output"`, with an executor stub. -/
theorem c2_missing_fence_behavior_witness :
    containsSub "```sparql" "no fence in this output" = false
    ∧ extract_sparql_query "no fence in this output" = none
    ∧ run_after_synthesis (extract_sparql_query "no fence in this output")
        (fun _ => (Except.ok none : Except Unit (Option (List Record))))
        = .fromExecutor none
    ∧ run_after_synthesis (some "")
        (fun _ => (Except.ok none : Except Unit (Option (List Record))))
        = .unsupportedText unsupportedQueryMsg := by
  have h := c2_missing_fence_behavior "no fence in this output" (by decide)
    (fun _ => (Except.ok none : Except Unit (Option (List Record))))
  exact ⟨by decide, h.1, h.2.1, h.2.2⟩

/-! ## Helper lemmas about `collectCandidates` -/

/-- Successful candidate collection preserves length and maps each position
of the input to the corresponding candidate. -/
theorem collectCandidates_ok {l : List SearchItem} {cs : List Candidate}
    (h : collectCandidates l = .ok cs) :
    cs.length = l.length
    ∧ ∀ i : Nat, cs[i]? = l[i]?.bind fun it => (toCandidate it).toOption := by
  induction l generalizing cs with
  | nil =>
    simp [collectCandidates] at h
    subst h
    exact ⟨rfl, fun i => by simp⟩
  | cons a t ih =>
    unfold collectCandidates at h
    rcases ha : toCandidate a with e | c
    · rw [ha] at h; simp at h
    · rw [ha] at h
      rcases ht : collectCandidates t with e | rest
      · rw [ht] at h; simp at h
      · rw [ht] at h
        injection h with h
        subst h
        obtain ⟨hlen, hidx⟩ := ih ht
        refine ⟨by simp [hlen], ?_⟩
        intro i
        cases i with
        | zero => simp [ha, Except.toOption]
        | succ n => simpa using hidx n

/-- Every candidate of a successful collection comes from some input item. -/
theorem collectCandidates_ok_mem {l : List SearchItem} {cs : List Candidate}
    (h : collectCandidates l = .ok cs) :
    ∀ c ∈ cs, ∃ item ∈ l, toCandidate item = .ok c := by
  induction l generalizing cs with
  | nil =>
    simp [collectCandidates] at h
    subst h
    simp
  | cons a t ih =>
    unfold collectCandidates at h
    rcases ha : toCandidate a with e | c0
    · rw [ha] at h; simp at h
    · rw [ha] at h
      rcases ht : collectCandidates t with e | rest
      · rw [ht] at h; simp at h
      · rw [ht] at h
        injection h with h
        subst h
        intro c hc
        rcases List.mem_cons.mp hc with rfl | hc'
        · exact ⟨a, List.mem_cons_self a t, ha⟩
        · obtain ⟨item, hmem, hok⟩ := ih ht c hc'
          exact ⟨item, List.mem_cons_of_mem _ hmem, hok⟩

/-- Shape of a successfully built candidate: `id` and `label` come from the
item's required fields, `description` defaults to `""` when absent. -/
theorem toCandidate_ok_shape {item : SearchItem} {c : Candidate}
    (h : toCandidate item = .ok c) :
    item.id = some c.id ∧ item.label = some c.label
      ∧ c.description = item.description.getD "" := by
  rcases item with ⟨iid, ilab, idesc⟩
  rcases iid with _ | i
  · simp [toCandidate] at h
  · rcases ilab with _ | l
    · simp [toCandidate] at h
    · simp only [toCandidate] at h
      injection h with h
      subst h
      exact ⟨rfl, rfl, rfl⟩

/-- An item missing `id` or `label` makes the comprehension body raise
`KeyError`. -/
theorem toCandidate_missing {item : SearchItem}
    (h : item.id = none ∨ item.label = none) :
    toCandidate item = .error .keyError := by
  rcases item with ⟨iid, ilab, idesc⟩
  rcases h with h | h
  · simp only at h
    subst h
    rfl
  · simp only at h
    subst h
    rcases iid with _ | i <;> rfl

/-- The only exception the comprehension body raises is `KeyError`. -/
theorem toCandidate_error_eq {item : SearchItem} {e : PyError}
    (h : toCandidate item = .error e) : e = .keyError := by
  rcases item with ⟨iid, ilab, idesc⟩
  rcases iid with _ | i
  · simp [toCandidate] at h
    exact h.symm
  · rcases ilab with _ | l
    · simp [toCandidate] at h
      exact h.symm
    · simp [toCandidate] at h

/-- One item raising `KeyError` makes the whole collection raise it. -/
theorem collectCandidates_bad {l : List SearchItem} {item : SearchItem}
    (hmem : item ∈ l) (hbad : toCandidate item = .error .keyError) :
    collectCandidates l = .error .keyError := by
  induction l with
  | nil => exact absurd hmem (List.not_mem_nil _)
  | cons a t ih =>
    rcases List.mem_cons.mp hmem with rfl | hmem'
    · simp [collectCandidates, hbad]
    · rcases ha : toCandidate a with e | c
      · have := toCandidate_error_eq ha
        subst this
        simp [collectCandidates, ha]
      · simp [collectCandidates, ha, ih hmem']

/-! ## Helper lemmas about `flattenRow` and `collectRows` -/

/-- When the row binds every declared variable, flattening yields the
header-ordered association list of bound values. -/
theorem flattenRow_total {vars : List String} {row : Record}
    (h : ∀ v ∈ vars, (row.lookup v).isSome = true) :
    flattenRow vars row = some (vars.map fun v => (v, (row.lookup v).getD "")) := by
  induction vars with
  | nil => rfl
  | cons v vs ih =>
    have hv := h v (List.mem_cons_self v vs)
    rcases hx : row.lookup v with _ | x
    · rw [hx] at hv; simp at hv
    · have hrest := ih (fun u hu => h u (List.mem_cons_of_mem _ hu))
      simp [flattenRow, hx, hrest]

/-- When every row binds every declared variable, the whole loop yields one
flattened record per row, in row order. -/
theorem collectRows_total {vars : List String} {bindings : List Record}
    (h : ∀ row ∈ bindings, ∀ v ∈ vars, (row.lookup v).isSome = true) :
    collectRows vars bindings
      = some (bindings.map fun row => vars.map fun v => (v, (row.lookup v).getD "")) := by
  induction bindings with
  | nil => rfl
  | cons r rs ih =>
    have h1 := flattenRow_total (h r (List.mem_cons_self r rs))
    have h2 := ih (fun row hrow => h row (List.mem_cons_of_mem _ hrow))
    simp [collectRows, h1, h2]

/-- A row missing a binding for some declared variable fails to flatten. -/
theorem flattenRow_missing {vars : List String} {row : Record}
    (h : ∃ v ∈ vars, row.lookup v = none) :
    flattenRow vars row = none := by
  induction vars with
  | nil =>
    rcases h with ⟨v, hv, _⟩
    exact absurd hv (List.not_mem_nil _)
  | cons u vs ih =>
    rcases h with ⟨v, hv, hnone⟩
    rcases List.mem_cons.mp hv with rfl | hv'
    · simp [flattenRow, hnone]
    · rcases hx : row.lookup u with _ | x
      · simp [flattenRow, hx]
      · simp [flattenRow, hx, ih ⟨v, hv', hnone⟩]

/-- One row failing to flatten makes the whole loop yield `none`. -/
theorem collectRows_missing {vars : List String} {bindings : List Record} {row : Record}
    (hmem : row ∈ bindings) (h : flattenRow vars row = none) :
    collectRows vars bindings = none := by
  induction bindings with
  | nil => exact absurd hmem (List.not_mem_nil _)
  | cons r rs ih =>
    rcases List.mem_cons.mp hmem with rfl | hmem'
    · simp [collectRows, h]
    · rcases hf : flattenRow vars r with _ | flat
      · simp [collectRows, hf]
      · simp [collectRows, hf, ih hmem']

/-- A successful loop yields exactly one record per binding row. -/
theorem collectRows_ok_length {vars : List String} {bindings : List Record} {l : List Record}
    (h : collectRows vars bindings = some l) : l.length = bindings.length := by
  induction bindings generalizing l with
  | nil =>
    simp [collectRows] at h
    subst h
    rfl
  | cons r rs ih =>
    unfold collectRows at h
    rcases hf : flattenRow vars r with _ | flat
    · rw [hf] at h; simp at h
    · rw [hf] at h
      rcases hc : collectRows vars rs with _ | rest
      · rw [hc] at h; simp at h
      · rw [hc] at h
        injection h with h
        subst h
        simp [ih hc]

/-! ## Claim C7 — top-5 prefix of the search results -/

/-- C7: the candidate list `_get_wikidata_entities` returns has at most 5
entries, exactly as many as the top-5 prefix of the search response holds,
and its `i`-th candidate is built from the `i`-th item of that prefix —
top-ranked prefix, in order, fewer when fewer are available. -/
theorem c7_top5_in_order (items : List SearchItem) (cs : List Candidate)
    (h : get_wikidata_entities (.ok items) = .ok cs) :
    cs.length ≤ 5
    ∧ cs.length = (items.take 5).length
    ∧ ∀ i : Nat, cs[i]? = (items.take 5)[i]?.bind fun it => (toCandidate it).toOption := by
  have h' : collectCandidates (items.take 5) = .ok cs := by
    simpa [get_wikidata_entities, fetch_wikidata, jsonOf] using h
  obtain ⟨hlen, hidx⟩ := collectCandidates_ok h'
  refine ⟨?_, hlen, hidx⟩
  rw [hlen, List.length_take]
  exact min_le_left 5 items.length

/-- Search response with seven items used to exercise the top-5 cut. -/
def demoSearchItems : List SearchItem :=
  [⟨some "Q1", some "universe", some "everything that exists"⟩,
   ⟨some "Q2", some "Earth", none⟩,
   ⟨some "Q3", some "life", some "quality distinguishing organisms"⟩,
   ⟨some "Q4", some "death", some "end of life"⟩,
   ⟨some "Q5", some "human", some "species of primate"⟩,
   ⟨some "Q6", some "extra one", none⟩,
   ⟨some "Q7", some "extra two", none⟩]

/-- Candidates built from the first five of `demoSearchItems`. -/
def demoCandidates : List Candidate :=
  [⟨"Q1", "universe", "everything that exists"⟩,
   ⟨"Q2", "Earth", ""⟩,
   ⟨"Q3", "life", "quality distinguishing organisms"⟩,
   ⟨"Q4", "death", "end of life"⟩,
   ⟨"Q5", "human", "species of primate"⟩]

/-- C7 witness: the theorem applied at a concrete seven-item response,
whose result has the five top-ranked candidates in order. -/
theorem c7_top5_in_order_witness :
    get_wikidata_entities (.ok demoSearchItems) = .ok demoCandidates
    ∧ demoCandidates.length ≤ 5
    ∧ demoCandidates.length = (demoSearchItems.take 5).length
    ∧ demoCandidates[1]?
        = (demoSearchItems.take 5)[1]?.bind fun it => (toCandidate it).toOption := by
  have h : get_wikidata_entities (.ok demoSearchItems) = .ok demoCandidates := rfl
  exact ⟨h, (c7_top5_in_order _ _ h).1, (c7_top5_in_order _ _ h).2.1,
    (c7_top5_in_order _ _ h).2.2 1⟩

/-! ## Claim C8 — flattening of a successful query response -/

/-- C8: on a successful response whose every row binds every declared
variable, the executor returns one record per row, in row order, each
record mapping each declared variable to its bound value with keys in
header order. -/
theorem c8_flatten_success (vars : List String) (bindings : List Record)
    (h : ∀ row ∈ bindings, ∀ v ∈ vars, (row.lookup v).isSome = true) :
    execute_sparql_to_wikidata (.success vars bindings)
      = some (bindings.map fun row => vars.map fun v => (v, (row.lookup v).getD "")) := by
  simpa [execute_sparql_to_wikidata] using collectRows_total h

/-- Header variables of the C8 witness response. -/
def demoVars : List String := ["item", "itemLabel"]

/-- Binding rows of the C8 witness response; the second row lists its keys
in the opposite order to the header. -/
def demoBindings : List Record :=
  [[("item", "Q64"), ("itemLabel", "Berlin")],
   [("itemLabel", "Paris"), ("item", "Q90")]]

/-- C8 witness: the theorem applied at a concrete two-row response; the
records come out in row order with keys normalised to header order. -/
theorem c8_flatten_success_witness :
    (∀ row ∈ demoBindings, ∀ v ∈ demoVars, (row.lookup v).isSome = true)
    ∧ execute_sparql_to_wikidata (.success demoVars demoBindings)
        = some [[("item", "Q64"), ("itemLabel", "Berlin")],
                [("item", "Q90"), ("itemLabel", "Paris")]] := by
  have hh : ∀ row ∈ demoBindings, ∀ v ∈ demoVars, (row.lookup v).isSome = true := by decide
  refine ⟨hh, ?_⟩
  rw [c8_flatten_success demoVars demoBindings hh]
  decide

/-! ## Claim C9 — all-or-nothing execution results -/

/-- C9: the executor is total on its modelled outcomes and never yields a
partial record list: a row lacking a binding for a declared variable makes
the whole result `none`; an empty binding list yields `some []`; a raised
query error yields `none`; any `some` result has exactly one record per
row; and `none` (failure) is distinct from `some []` (zero results). -/
theorem c9_all_or_nothing :
    (∀ (vars : List String) (bindings : List Record) (row : Record),
        row ∈ bindings → (∃ v ∈ vars, row.lookup v = none) →
          execute_sparql_to_wikidata (.success vars bindings) = none)
    ∧ (∀ vars : List String, execute_sparql_to_wikidata (.success vars []) = some [])
    ∧ execute_sparql_to_wikidata .failure = none
    ∧ (∀ (vars : List String) (bindings : List Record) (l : List Record),
        execute_sparql_to_wikidata (.success vars bindings) = some l →
          l.length = bindings.length)
    ∧ ((none : Option (List Record)) == some []) = false := by
  refine ⟨?_, fun vars => rfl, rfl, ?_, by decide⟩
  · intro vars bindings row hmem hmiss
    simpa [execute_sparql_to_wikidata] using
      collectRows_missing hmem (flattenRow_missing hmiss)
  · intro vars bindings l h
    exact collectRows_ok_length (by simpa [execute_sparql_to_wikidata] using h)

/-- C9 witness: the theorem applied at a one-row response — with a declared
variable `"extra"` the row does not bind, the whole result is `none`; with
only the bound variable declared it is the one flattened record. -/
theorem c9_all_or_nothing_witness :
    ([("item", "Q64")] : Record) ∈ [[("item", "Q64")]]
    ∧ (([("item", "Q64")] : Record).lookup "extra") = none
    ∧ execute_sparql_to_wikidata (.success ["item", "extra"] [[("item", "Q64")]]) = none
    ∧ execute_sparql_to_wikidata (.success ["item"] [[("item", "Q64")]])
        = some [[("item", "Q64")]]
    ∧ ([[("item", "Q64")]] : List Record).length = [[("item", "Q64")]].length := by
  refine ⟨by decide, by decide, ?_, by decide, ?_⟩
  · exact c9_all_or_nothing.1 ["item", "extra"] [[("item", "Q64")]] [("item", "Q64")]
      (by decide) ⟨"extra", by decide, by decide⟩
  · exact c9_all_or_nothing.2.2.2.1 ["item"] [[("item", "Q64")]] _ (by decide)

/-! ## Claim C10 — shape of the candidate dictionaries -/

/-- C10: every candidate `_get_wikidata_entities` returns is a `Candidate`
record (exactly the keys `id`, `label`, `description`) built from some item
of the top-5 prefix, with `id` and `label` the item's present fields and
`description` defaulting to `""` when the item omits it; an item of that
prefix missing `id` or `label` instead makes the call raise `KeyError`. -/
theorem c10_candidate_shape :
    (∀ (items : List SearchItem) (cs : List Candidate),
        get_wikidata_entities (.ok items) = .ok cs →
          ∀ c ∈ cs, ∃ item ∈ items.take 5,
            item.id = some c.id ∧ item.label = some c.label
              ∧ c.description = item.description.getD "")
    ∧ (∀ items : List SearchItem,
        (∃ item ∈ items.take 5, item.id = none ∨ item.label = none) →
          get_wikidata_entities (.ok items) = .error .keyError) := by
  constructor
  · intro items cs h c hc
    have h' : collectCandidates (items.take 5) = .ok cs := by
      simpa [get_wikidata_entities, fetch_wikidata, jsonOf] using h
    obtain ⟨item, hmem, hok⟩ := collectCandidates_ok_mem h' c hc
    exact ⟨item, hmem, toCandidate_ok_shape hok⟩
  · rintro items ⟨item, hmem, hbad⟩
    have h' : collectCandidates (items.take 5) = .error .keyError :=
      collectCandidates_bad hmem (toCandidate_missing hbad)
    simpa [get_wikidata_entities, fetch_wikidata, jsonOf] using h'

/-- Well-formed search item for the C10 witness. -/
def goodItem : SearchItem := ⟨some "Q5", some "human", none⟩

/-- Search item with no `id` field for the C10 witness. -/
def badItem : SearchItem := ⟨none, some "mystery", some "item with no id"⟩

/-- C10 witness: the theorem applied at concrete responses — one item with
an omitted description yields a candidate with description `""`; adding an
item with no `id` makes the call raise `KeyError`. -/
theorem c10_candidate_shape_witness :
    get_wikidata_entities (.ok [goodItem]) = .ok [⟨"Q5", "human", ""⟩]
    ∧ (∃ item ∈ [goodItem].take 5,
        item.id = some "Q5" ∧ item.label = some "human"
          ∧ ("" : String) = item.description.getD "")
    ∧ badItem ∈ [goodItem, badItem].take 5
    ∧ get_wikidata_entities (.ok [goodItem, badItem]) = .error .keyError := by
  refine ⟨rfl, ?_, by decide, ?_⟩
  · exact c10_candidate_shape.1 [goodItem] [⟨"Q5", "human", ""⟩] rfl
      ⟨"Q5", "human", ""⟩ (by decide)
  · exact c10_candidate_shape.2 [goodItem, badItem] ⟨badItem, by decide, Or.inl (by decide)⟩

/-! ## Claim C1 — post-hoc validation of resolved entity ids -/

/-- Candidate list fetched for the mention `"Berlin"` in the C1 scenario. -/
def berlinCandidates : List Candidate :=
  [⟨"Q64", "Berlin", "federal state, capital and largest city of Germany"⟩,
   ⟨"Q821244", "Berlin", "town in Coos County, New Hampshire, United States"⟩]

/-- Resolved entry with a fabricated id, absent from `berlinCandidates`. -/
def fabricatedItem : EntityIdItem := ⟨"Q999999", "Berlin", none⟩

/-- Parse oracle for the C1 scenario: the model output `"FAKE_PAYLOAD"`
parses to a singleton ids list holding the fabricated entry. -/
def parseOracle : String → Option EntityIds :=
  fun s => if s = "FAKE_PAYLOAD" then some ⟨[fabricatedItem]⟩ else none

/-- C1 counterexample: `get_entity_ids` returns the fabricated entry even
though its id appears in no candidate list — the entry is accepted, not
dropped, so the claimed post-hoc validation does not exist in the code. -/
theorem c1_no_posthoc_validation_cex :
    get_entity_ids_model [("Berlin", berlinCandidates)] "Entity IDs: FAKE_PAYLOAD" parseOracle
      = some [fabricatedItem]
    ∧ (berlinCandidates.map Candidate.id).contains fabricatedItem.id = false := by
  exact ⟨by decide, by decide⟩

/-- C1 amended: `get_entity_ids` performs no post-hoc validation.  Whatever
`ids` list the (possibly once-retried) parse yields is returned unchanged,
and the fetched candidate lists have no influence on the returned value at
all — they are interpolated into the prompt only. -/
theorem c1_parsed_ids_returned_unchanged
    (candidatesForPrompt altCandidates : List (String × List Candidate))
    (llmResponse : String) (parse : String → Option EntityIds) (p : EntityIds)
    (h : parse (pySplitLast "Entity IDs: " llmResponse) = some p) :
    get_entity_ids_model candidatesForPrompt llmResponse parse = some p.ids
    ∧ get_entity_ids_model candidatesForPrompt llmResponse parse
        = get_entity_ids_model altCandidates llmResponse parse := by
  refine ⟨?_, rfl⟩
  simp [get_entity_ids_model, h]

/-- C1 witness: the amended theorem applied to the concrete parse oracle
and candidate lists of the counterexample scenario. -/
theorem c1_parsed_ids_returned_unchanged_witness :
    parseOracle (pySplitLast "Entity IDs: " "Entity IDs: FAKE_PAYLOAD")
      = some ⟨[fabricatedItem]⟩
    ∧ get_entity_ids_model [("Berlin", berlinCandidates)] "Entity IDs: FAKE_PAYLOAD" parseOracle
        = some [fabricatedItem] :=
  ⟨by decide,
    (c1_parsed_ids_returned_unchanged [("Berlin", berlinCandidates)] []
      "Entity IDs: FAKE_PAYLOAD" parseOracle ⟨[fabricatedItem]⟩ (by decide)).1⟩

end WikidataRAG
